import Mathlib

/-!
Shallow embedding of `src/server.js` (portfolio backend API).

The server is an Express application over MongoDB (mongoose) and Cloudinary.
We model:
  * the two mongoose schemas (`Content`, `Project`) as Lean structures, with
    the body-supplied text fields as `Option String` (a missing multipart
    field is `undefined` in JS, i.e. `none`); mongoose `required` validation
    is run by `saveContent` / `saveProject`;
  * the document store as a `List` of records (insertion order), with
    `find?` over the generated numeric id standing for `findById`;
  * the multer + CloudinaryStorage upload middleware (`upload.single`) as
    `uploadSingle`, which applies `fileFilter` and the 50 MB `limits`
    check and, on success, produces the `req.file` object whose `path` /
    `filename` are the url / public id returned by Cloudinary (modelled by a
    `CloudinaryResult` oracle) and records the remote upload call
    (destination folder, resource type);
  * the `authenticate` middleware over optional header / optional
    `process.env.ADMIN_PASSWORD` (both `undefined`-able in JS);
  * each route handler as a pure function from the request and the current
    store to a `Result`: HTTP status, JSON body, the new store, and the log
    of calls made to `cloudinary.uploader.destroy` and to the upload API.
Remote-store failure is modelled by a `remoteOk : Bool` oracle threaded to
`deleteFromCloudinary`, whose `try/catch` swallows the failure.
-/

namespace Portfolio

/-- `process.env` configuration relevant to the routes: `ADMIN_PASSWORD`
(`none` when the variable is unset, i.e. `undefined` in JS). -/
structure Env where
  adminPassword : Option String
deriving Repr, DecidableEq

/-- The `req.file` object produced by `upload.single('file')`:
`path` is the Cloudinary URL, `filename` the Cloudinary public id. -/
structure UploadedFile where
  path : String
  mimetype : String
  filename : String
  size : Nat
deriving Repr, DecidableEq

/-- An incoming multipart file before the upload middleware runs:
declared MIME type, size in bytes, original name. -/
structure RawFile where
  mimetype : String
  size : Nat
  originalname : String
deriving Repr, DecidableEq

/-- The reference the remote media store returns for a stored file
(`secure_url` and `public_id` in Cloudinary's response). -/
structure CloudinaryResult where
  url : String
  publicId : String
deriving Repr, DecidableEq

/-- A document of the `Content` collection (`contentSchema`, server.js:36-45).
Text fields that arrive from the request body are `Option String`
(`none` = the field was `undefined`); timestamps are `Nat` (ms since epoch). -/
structure ContentRecord where
  id : Nat
  title : Option String
  description : Option String
  fileUrl : String
  fileType : String
  publicId : String
  category : Option String
  createdAt : Nat
  updatedAt : Nat
deriving Repr, DecidableEq

/-- A document of the `Project` collection (`projectSchema`, server.js:50-62). -/
structure ProjectRecord where
  id : Nat
  projectTitle : Option String
  studentName : Option String
  rollNo : Option String
  department : Option String
  year : Option String
  description : Option String
  fileUrl : String
  fileType : String
  publicId : String
  createdAt : Nat
  updatedAt : Nat
deriving Repr, DecidableEq

/-- JSON response bodies the routes produce. -/
inductive Body where
  | err (msg : String)
  | message (msg : String)
  | contentDoc (c : ContentRecord)
  | contentList (cs : List ContentRecord)
  | projectDoc (p : ProjectRecord)
  | projectList (ps : List ProjectRecord)
  | verdict (valid : Bool)
deriving Repr, DecidableEq

/-- Outcome of one request: HTTP status, JSON body, the store afterwards,
the calls made to `cloudinary.uploader.destroy` (public id, resource type)
and to the Cloudinary upload API (folder, resource type). -/
structure Result (σ : Type) where
  status : Nat
  body : Body
  state : σ
  remoteDeletes : List (String × String) := []
  remoteUploads : List (String × String) := []
deriving Repr, DecidableEq

/-- `authenticate` middleware (server.js:124-131): strict equality of the
`x-admin-password` header against `process.env.ADMIN_PASSWORD`; both sides
may be `undefined` (`none`), and `undefined === undefined` holds in JS. -/
def authenticate (header : Option String) (adminPassword : Option String) : Bool :=
  header == adminPassword

/-- Substring test over the characters (kernel-reducible). -/
def containsSub (needle : List Char) (haystack : List Char) : Bool :=
  match haystack with
  | [] => needle.isEmpty
  | _ :: t => needle.isPrefixOf haystack || containsSub needle t

/-- `String.prototype.startsWith` over the characters. -/
def strStartsWith (s pre : String) : Bool :=
  pre.toList.isPrefixOf s.toList

/-- `baseUrl.includes('projects')` (substring test). -/
def includesProjects (baseUrl : String) : Bool :=
  containsSub "projects".toList baseUrl.toList

/-- Destination folder chosen by the CloudinaryStorage `params` callback
(server.js:70-78): `portfolio/projects` when the request's base URL contains
`projects`; otherwise by the body's `category`; `portfolio` by default. -/
def storageFolder (baseUrl : String) (category : Option String) : String :=
  if includesProjects baseUrl then "portfolio/projects"
  else if category == some "curriculum" then "portfolio/curriculum"
  else if category == some "hobbies" then "portfolio/hobbies"
  else "portfolio"

/-- Resource type chosen by the CloudinaryStorage `params` callback
(server.js:81-88) from the MIME type. -/
def storageResourceType (mimetype : String) : String :=
  if strStartsWith mimetype "video/" then "video"
  else if strStartsWith mimetype "image/" then "image"
  else "raw"

/-- The MIME allow-list of `fileFilter` (server.js:102-108). -/
def allowedTypes : List String :=
  ["image/jpeg", "image/png", "image/gif",
   "video/mp4", "video/webm",
   "application/pdf",
   "application/msword",
   "application/vnd.openxmlformats-officedocument.wordprocessingml.document"]

/-- `fileFilter` (server.js:101-115): accept exactly the allow-listed types. -/
def fileFilter (mimetype : String) : Bool :=
  allowedTypes.contains mimetype

/-- `limits.fileSize` of the multer instance (server.js:120): 50 MB. -/
def fileSizeLimit : Nat := 50 * 1024 * 1024

/-- `upload.single('file')` (server.js:117-121): no file is fine (`req.file`
stays `undefined`); otherwise `fileFilter` rejects disallowed MIME types
before any remote call, the size limit rejects oversized files, and an
accepted file is stored remotely — `req.file.path` / `req.file.filename`
take the url / public id Cloudinary returned, and the upload call
(folder from `storageFolder`, resource type from `storageResourceType`)
is logged. Errors carry multer's message and reach Express's error handler. -/
def uploadSingle (baseUrl : String) (category : Option String)
    (raw : Option RawFile) (cloud : CloudinaryResult) :
    Except String (Option UploadedFile) × List (String × String) :=
  match raw with
  | none => (Except.ok none, [])
  | some f =>
    if fileFilter f.mimetype = false then
      (Except.error "Invalid file type. Only images, videos, PDFs, and Word documents are allowed.", [])
    else if f.size > fileSizeLimit then
      (Except.error "File too large", [])
    else
      (Except.ok (some { path := cloud.url, mimetype := f.mimetype,
                         filename := cloud.publicId, size := f.size }),
       [(storageFolder baseUrl category, storageResourceType f.mimetype)])

/-- `deleteFromCloudinary` helper (server.js:134-141): calls
`cloudinary.uploader.destroy` inside `try/catch`; a failure (`remoteOk =
false`) is logged and never rethrown. Returns the destroy call that was
issued. -/
def deleteFromCloudinary (remoteOk : Bool) (publicId : String) (resourceType : String) :
    List (String × String) :=
  match (if remoteOk then Except.ok () else Except.error "destroy failed" : Except String Unit) with
  | Except.ok _ => [(publicId, resourceType)]
  | Except.error _ => [(publicId, resourceType)]

/-- `getResourceType` helper (server.js:144-148). -/
def getResourceType (fileType : String) : String :=
  if strStartsWith fileType "video/" then "video"
  else if strStartsWith fileType "image/" then "image"
  else "raw"

/-- Mongoose `required` validation for a `Content` document: the paths whose
value is missing (`undefined`). -/
def contentMissingPaths (c : ContentRecord) : List String :=
  (if c.title.isNone then ["title"] else []) ++
  (if c.description.isNone then ["description"] else []) ++
  (if c.category.isNone then ["category"] else [])

/-- `document.save()` for `Content`: a missing required path raises a
ValidationError whose message names the paths; otherwise the document is
persisted as-is. -/
def saveContent (c : ContentRecord) : Except String ContentRecord :=
  match contentMissingPaths c with
  | [] => Except.ok c
  | paths =>
    Except.error ("Content validation failed: " ++
      String.intercalate ", " (paths.map (fun p => "Path " ++ p ++ " is required.")))

/-- Mongoose `required` validation for a `Project` document. -/
def projectMissingPaths (p : ProjectRecord) : List String :=
  (if p.projectTitle.isNone then ["projectTitle"] else []) ++
  (if p.studentName.isNone then ["studentName"] else []) ++
  (if p.rollNo.isNone then ["rollNo"] else []) ++
  (if p.department.isNone then ["department"] else []) ++
  (if p.year.isNone then ["year"] else []) ++
  (if p.description.isNone then ["description"] else [])

/-- `document.save()` for `Project`. -/
def saveProject (p : ProjectRecord) : Except String ProjectRecord :=
  match projectMissingPaths p with
  | [] => Except.ok p
  | paths =>
    Except.error ("Project validation failed: " ++
      String.intercalate ", " (paths.map (fun q => "Path " ++ q ++ " is required.")))

/-- JS truthy-overwrite merge `x || old` for an optional body field:
`undefined` and the empty string are falsy, so they keep the old value. -/
def orKeep (new : Option String) (old : Option String) : Option String :=
  match new with
  | none => old
  | some s => if s = "" then old else some s

/-- Text fields of a content request body (each `undefined`-able). -/
structure ContentBody where
  title : Option String
  description : Option String
  category : Option String
deriving Repr, DecidableEq

/-- Text fields of a project request body. -/
structure ProjectBody where
  projectTitle : Option String
  studentName : Option String
  rollNo : Option String
  department : Option String
  year : Option String
  description : Option String
deriving Repr, DecidableEq

/-- Newest-first ordering used by the list routes
(`.sort` with `createdAt: -1`). -/
def sortByCreatedAtDesc (cs : List ContentRecord) : List ContentRecord :=
  cs.mergeSort (fun a b => decide (b.createdAt ≤ a.createdAt))

/-- Newest-first ordering for projects. -/
def sortProjectsByCreatedAtDesc (ps : List ProjectRecord) : List ProjectRecord :=
  ps.mergeSort (fun a b => decide (b.createdAt ≤ a.createdAt))

/-- `GET /api/content/:category` (server.js:153-160): all content of the
requested category, newest first. -/
def getContentByCategory (category : String) (st : List ContentRecord) :
    Result (List ContentRecord) :=
  { status := 200,
    body := Body.contentList
      (sortByCreatedAtDesc (st.filter (fun c => c.category == some category))),
    state := st }

/-- `GET /api/content/item/:id` (server.js:163-173). -/
def getContentItem (id : Nat) (st : List ContentRecord) :
    Result (List ContentRecord) :=
  match st.find? (fun c => c.id == id) with
  | none => { status := 404, body := Body.err "Content not found", state := st }
  | some c => { status := 200, body := Body.contentDoc c, state := st }

/-- The document `new Content({...})` built by `POST /api/content`
(server.js:184-191); both timestamps default to the current time. -/
def newContentDoc (body : ContentBody) (file : UploadedFile)
    (now freshId : Nat) : ContentRecord :=
  { id := freshId, title := body.title, description := body.description,
    fileUrl := file.path, fileType := file.mimetype,
    publicId := file.filename, category := body.category,
    createdAt := now, updatedAt := now }

/-- `POST /api/content` (server.js:176-198): authenticate, run the upload
middleware, 400 when no file was uploaded, otherwise build the new document
(timestamps default to `Date.now`), save it and answer 201. A save error is
caught and answered as 500 with the error's message. -/
def postContent (env : Env) (header : Option String) (body : ContentBody)
    (raw : Option RawFile) (cloud : CloudinaryResult)
    (now : Nat) (freshId : Nat) (st : List ContentRecord) :
    Result (List ContentRecord) :=
  if authenticate header env.adminPassword then
    match uploadSingle "/api/content" body.category raw cloud with
    | (Except.error msg, ups) =>
      { status := 500, body := Body.err msg, state := st, remoteUploads := ups }
    | (Except.ok none, ups) =>
      { status := 400, body := Body.err "No file uploaded", state := st,
        remoteUploads := ups }
    | (Except.ok (some file), ups) =>
      match saveContent (newContentDoc body file now freshId) with
      | Except.error msg =>
        { status := 500, body := Body.err msg, state := st, remoteUploads := ups }
      | Except.ok saved =>
        { status := 201, body := Body.contentDoc saved, state := st ++ [saved],
          remoteUploads := ups }
  else
    { status := 401, body := Body.err "Unauthorized", state := st }

/-- The in-place mutation `PUT /api/content/:id` performs on the found
document before saving (server.js:210-222): truthy-overwrite of title and
description, refresh of `updatedAt`, and replacement of the file fields by
the uploaded file's when one was sent. -/
def contentAfterUpdate (body : ContentBody) (file? : Option UploadedFile)
    (now : Nat) (content : ContentRecord) : ContentRecord :=
  match file? with
  | none =>
    { content with
      title := orKeep body.title content.title,
      description := orKeep body.description content.description,
      updatedAt := now }
  | some file =>
    { content with
      title := orKeep body.title content.title,
      description := orKeep body.description content.description,
      updatedAt := now,
      fileUrl := file.path, fileType := file.mimetype,
      publicId := file.filename }

/-- The destroy calls `PUT /api/content/:id` issues (server.js:214-216):
exactly one, for the previous file, when a new file was uploaded. -/
def contentUpdateDeletes (file? : Option UploadedFile) (remoteOk : Bool)
    (content : ContentRecord) : List (String × String) :=
  match file? with
  | none => []
  | some _ =>
    deleteFromCloudinary remoteOk content.publicId
      (getResourceType content.fileType)

/-- `PUT /api/content/:id` (server.js:201-229): authenticate, run the upload
middleware, 404 on unknown id; apply `contentAfterUpdate` and the best-effort
remote delete of `contentUpdateDeletes`, then save the document back. -/
def putContent (env : Env) (header : Option String) (id : Nat)
    (body : ContentBody) (raw : Option RawFile) (cloud : CloudinaryResult)
    (remoteOk : Bool) (now : Nat) (st : List ContentRecord) :
    Result (List ContentRecord) :=
  if authenticate header env.adminPassword then
    match uploadSingle "/api/content" body.category raw cloud with
    | (Except.error msg, ups) =>
      { status := 500, body := Body.err msg, state := st, remoteUploads := ups }
    | (Except.ok file?, ups) =>
      match st.find? (fun c => c.id == id) with
      | none =>
        { status := 404, body := Body.err "Content not found", state := st,
          remoteUploads := ups }
      | some content =>
        match saveContent (contentAfterUpdate body file? now content) with
        | Except.error msg =>
          { status := 500, body := Body.err msg, state := st,
            remoteDeletes := contentUpdateDeletes file? remoteOk content,
            remoteUploads := ups }
        | Except.ok saved =>
          { status := 200, body := Body.contentDoc saved,
            state := st.map (fun c => if c.id == id then saved else c),
            remoteDeletes := contentUpdateDeletes file? remoteOk content,
            remoteUploads := ups }
  else
    { status := 401, body := Body.err "Unauthorized", state := st }

/-- `DELETE /api/content/:id` (server.js:232-249): authenticate, 404 on
unknown id; the record's file is deleted from Cloudinary (best effort) and
the record removed from the store. -/
def deleteContent (env : Env) (header : Option String) (id : Nat)
    (remoteOk : Bool) (st : List ContentRecord) :
    Result (List ContentRecord) :=
  if authenticate header env.adminPassword then
    match st.find? (fun c => c.id == id) with
    | none => { status := 404, body := Body.err "Content not found", state := st }
    | some content =>
      { status := 200, body := Body.message "Content deleted successfully",
        state := st.filter (fun c => !(c.id == id)),
        remoteDeletes :=
          deleteFromCloudinary remoteOk content.publicId
            (getResourceType content.fileType) }
  else
    { status := 401, body := Body.err "Unauthorized", state := st }

/-- `GET /api/projects` (server.js:254-261): all projects, newest first. -/
def getProjects (st : List ProjectRecord) : Result (List ProjectRecord) :=
  { status := 200, body := Body.projectList (sortProjectsByCreatedAtDesc st),
    state := st }

/-- `GET /api/projects/:id` (server.js:264-274). -/
def getProjectItem (id : Nat) (st : List ProjectRecord) :
    Result (List ProjectRecord) :=
  match st.find? (fun p => p.id == id) with
  | none => { status := 404, body := Body.err "Project not found", state := st }
  | some p => { status := 200, body := Body.projectDoc p, state := st }

/-- The document `new Project({...})` built by `POST /api/projects`
(server.js:285-295). -/
def newProjectDoc (body : ProjectBody) (file : UploadedFile)
    (now freshId : Nat) : ProjectRecord :=
  { id := freshId, projectTitle := body.projectTitle,
    studentName := body.studentName, rollNo := body.rollNo,
    department := body.department, year := body.year,
    description := body.description,
    fileUrl := file.path, fileType := file.mimetype,
    publicId := file.filename, createdAt := now, updatedAt := now }

/-- `POST /api/projects` (server.js:277-302). -/
def postProject (env : Env) (header : Option String) (body : ProjectBody)
    (raw : Option RawFile) (cloud : CloudinaryResult)
    (now : Nat) (freshId : Nat) (st : List ProjectRecord) :
    Result (List ProjectRecord) :=
  if authenticate header env.adminPassword then
    match uploadSingle "/api/projects" none raw cloud with
    | (Except.error msg, ups) =>
      { status := 500, body := Body.err msg, state := st, remoteUploads := ups }
    | (Except.ok none, ups) =>
      { status := 400, body := Body.err "No file uploaded", state := st,
        remoteUploads := ups }
    | (Except.ok (some file), ups) =>
      match saveProject (newProjectDoc body file now freshId) with
      | Except.error msg =>
        { status := 500, body := Body.err msg, state := st, remoteUploads := ups }
      | Except.ok saved =>
        { status := 201, body := Body.projectDoc saved, state := st ++ [saved],
          remoteUploads := ups }
  else
    { status := 401, body := Body.err "Unauthorized", state := st }

/-- The in-place mutation `PUT /api/projects/:id` performs on the found
document before saving (server.js:314-330). -/
def projectAfterUpdate (body : ProjectBody) (file? : Option UploadedFile)
    (now : Nat) (project : ProjectRecord) : ProjectRecord :=
  match file? with
  | none =>
    { project with
      projectTitle := orKeep body.projectTitle project.projectTitle,
      studentName := orKeep body.studentName project.studentName,
      rollNo := orKeep body.rollNo project.rollNo,
      department := orKeep body.department project.department,
      year := orKeep body.year project.year,
      description := orKeep body.description project.description,
      updatedAt := now }
  | some file =>
    { project with
      projectTitle := orKeep body.projectTitle project.projectTitle,
      studentName := orKeep body.studentName project.studentName,
      rollNo := orKeep body.rollNo project.rollNo,
      department := orKeep body.department project.department,
      year := orKeep body.year project.year,
      description := orKeep body.description project.description,
      updatedAt := now,
      fileUrl := file.path, fileType := file.mimetype,
      publicId := file.filename }

/-- The destroy calls `PUT /api/projects/:id` issues (server.js:322-324):
exactly one, for the previous file, when a new file was uploaded. -/
def projectUpdateDeletes (file? : Option UploadedFile) (remoteOk : Bool)
    (project : ProjectRecord) : List (String × String) :=
  match file? with
  | none => []
  | some _ =>
    deleteFromCloudinary remoteOk project.publicId
      (getResourceType project.fileType)

/-- `PUT /api/projects/:id` (server.js:305-337). -/
def putProject (env : Env) (header : Option String) (id : Nat)
    (body : ProjectBody) (raw : Option RawFile) (cloud : CloudinaryResult)
    (remoteOk : Bool) (now : Nat) (st : List ProjectRecord) :
    Result (List ProjectRecord) :=
  if authenticate header env.adminPassword then
    match uploadSingle "/api/projects" none raw cloud with
    | (Except.error msg, ups) =>
      { status := 500, body := Body.err msg, state := st, remoteUploads := ups }
    | (Except.ok file?, ups) =>
      match st.find? (fun p => p.id == id) with
      | none =>
        { status := 404, body := Body.err "Project not found", state := st,
          remoteUploads := ups }
      | some project =>
        match saveProject (projectAfterUpdate body file? now project) with
        | Except.error msg =>
          { status := 500, body := Body.err msg, state := st,
            remoteDeletes := projectUpdateDeletes file? remoteOk project,
            remoteUploads := ups }
        | Except.ok saved =>
          { status := 200, body := Body.projectDoc saved,
            state := st.map (fun p => if p.id == id then saved else p),
            remoteDeletes := projectUpdateDeletes file? remoteOk project,
            remoteUploads := ups }
  else
    { status := 401, body := Body.err "Unauthorized", state := st }

/-- `DELETE /api/projects/:id` (server.js:340-357). -/
def deleteProject (env : Env) (header : Option String) (id : Nat)
    (remoteOk : Bool) (st : List ProjectRecord) :
    Result (List ProjectRecord) :=
  if authenticate header env.adminPassword then
    match st.find? (fun p => p.id == id) with
    | none => { status := 404, body := Body.err "Project not found", state := st }
    | some project =>
      { status := 200, body := Body.message "Project deleted successfully",
        state := st.filter (fun p => !(p.id == id)),
        remoteDeletes :=
          deleteFromCloudinary remoteOk project.publicId
            (getResourceType project.fileType) }
  else
    { status := 401, body := Body.err "Unauthorized", state := st }

/-- `POST /api/verify-admin` (server.js:362-369): body `password` compared
against `ADMIN_PASSWORD`, always answers 200 with a verdict. -/
def verifyAdmin (env : Env) (password : Option String) : Result Unit :=
  if password == env.adminPassword then
    { status := 200, body := Body.verdict true, state := () }
  else
    { status := 200, body := Body.verdict false, state := () }

/-! Sample values used to instantiate theorems at concrete inputs. -/

/-- A sample stored content record. -/
def sampleContent : ContentRecord :=
  { id := 0, title := some "A", description := some "d",
    fileUrl := "https://res.example/u0", fileType := "image/png",
    publicId := "portfolio/p0", category := some "hobbies",
    createdAt := 5, updatedAt := 5 }

/-- A sample stored project record. -/
def sampleProject : ProjectRecord :=
  { id := 0, projectTitle := some "P", studentName := some "S",
    rollNo := some "1", department := some "CSE", year := some "IV",
    description := some "d", fileUrl := "https://res.example/v0",
    fileType := "application/pdf", publicId := "portfolio/projects/q0",
    createdAt := 5, updatedAt := 5 }

/-- A sample incoming file. -/
def sampleRaw : RawFile :=
  { mimetype := "image/png", size := 10240, originalname := "a.png" }

/-- A sample remote-store reply. -/
def sampleCloud : CloudinaryResult :=
  { url := "https://res.example/u1", publicId := "portfolio/p1" }

/-! Helper lemmas shared by the claim theorems. -/

/-- The destroy call is issued and the result is the same whether the remote
delete succeeds or fails: the `try/catch` swallows the outcome. -/
theorem deleteFromCloudinary_eq (remoteOk : Bool) (publicId resourceType : String) :
    deleteFromCloudinary remoteOk publicId resourceType = [(publicId, resourceType)] := by
  cases remoteOk <;> rfl

/-- Replacing in place the record matched by `p` with a record `saved` that
still matches `p` keeps `find? p` pointing at the replacement. -/
theorem find?_map_update {α : Type} (p : α → Bool) (saved : α) (hs : p saved = true)
    (st : List α) :
    (∃ old, st.find? p = some old) →
    (st.map (fun c => if p c then saved else c)).find? p = some saved := by
  induction st with
  | nil => rintro ⟨old, h⟩; simp at h
  | cons c cs ih =>
    rintro ⟨old, h⟩
    by_cases hc : p c = true
    · simp [List.map_cons, hc, List.find?_cons_of_pos, hs]
    · rw [List.find?_cons_of_neg _ hc] at h
      simp only [List.map_cons, if_neg hc]
      rw [List.find?_cons_of_neg _ hc]
      exact ih ⟨old, h⟩

/-- After filtering out every record matched by `p`, `find? p` finds nothing. -/
theorem find?_filter_not {α : Type} (p : α → Bool) (st : List α) :
    (st.filter (fun x => !(p x))).find? p = none := by
  rw [List.find?_eq_none]
  intro x hx
  have := List.of_mem_filter hx
  simpa using this

/-- The upload middleware makes no remote call when no file is sent. -/
theorem uploadSingle_none (baseUrl : String) (category : Option String)
    (cloud : CloudinaryResult) :
    uploadSingle baseUrl category none cloud = (Except.ok none, []) := rfl

/-- C9: when `ADMIN_PASSWORD` is unset, the gate compares `undefined` with
`undefined` and passes: a mutating request with no `x-admin-password` header
is authorized (here a DELETE reaches the lookup instead of being answered
401), and `POST /api/verify-admin` with no password field answers
`valid: true`. -/
theorem c9_unset_secret_authorizes (st : List ContentRecord) (id : Nat)
    (remoteOk : Bool) :
    authenticate none none = true ∧
    (deleteContent { adminPassword := none } none id remoteOk st).status ≠ 401 ∧
    (verifyAdmin { adminPassword := none } none).body = Body.verdict true := by
  refine ⟨rfl, ?_, rfl⟩
  show (deleteContent { adminPassword := none } none id remoteOk st).status ≠ 401
  unfold deleteContent
  have hauth : authenticate none (Env.adminPassword { adminPassword := none }) = true := rfl
  rw [if_pos hauth]
  cases h : st.find? (fun c => c.id == id) <;> simp

/-- C7: a create request that passes the gate but carries no file is answered
400 with `No file uploaded` and leaves the store untouched, for both
`POST /api/content` and `POST /api/projects`. -/
theorem c7_create_without_file (env : Env) (header : Option String)
    (body : ContentBody) (pbody : ProjectBody) (cloud : CloudinaryResult)
    (now freshId : Nat) (st : List ContentRecord) (pst : List ProjectRecord)
    (hauth : authenticate header env.adminPassword = true) :
    postContent env header body none cloud now freshId st =
      { status := 400, body := Body.err "No file uploaded", state := st } ∧
    postProject env header pbody none cloud now freshId pst =
      { status := 400, body := Body.err "No file uploaded", state := pst } := by
  constructor <;> simp [postContent, postProject, hauth, uploadSingle]

/-- Witness for C7 at a concrete request. -/
theorem c7_create_without_file_witness :
    authenticate (some "pw") (Env.adminPassword { adminPassword := some "pw" }) = true ∧
    postContent { adminPassword := some "pw" } (some "pw")
        { title := some "A", description := some "d", category := some "hobbies" }
        none sampleCloud 5 0 [] =
      { status := 400, body := Body.err "No file uploaded", state := [] } := by
  refine ⟨by decide, ?_⟩
  exact (c7_create_without_file { adminPassword := some "pw" } (some "pw")
    { title := some "A", description := some "d", category := some "hobbies" }
    { projectTitle := none, studentName := none, rollNo := none,
      department := none, year := none, description := none }
    sampleCloud 5 0 [] [] (by decide)).1

/-- C5: the upload middleware accepts a file exactly when its declared MIME
type is in the allow-list and its size is at most 50 MB; a file with a
disallowed MIME type is rejected with no remote-store call issued. -/
theorem c5_upload_validation (baseUrl : String) (category : Option String)
    (f : RawFile) (cloud : CloudinaryResult) :
    ((∃ uf ups, uploadSingle baseUrl category (some f) cloud =
        (Except.ok (some uf), ups)) ↔
      (f.mimetype ∈ allowedTypes ∧ f.size ≤ fileSizeLimit)) ∧
    (f.mimetype ∉ allowedTypes →
      ∃ msg, uploadSingle baseUrl category (some f) cloud =
        (Except.error msg, [])) := by
  constructor
  · constructor
    · rintro ⟨uf, ups, h⟩
      by_cases hm : fileFilter f.mimetype = false
      · simp [uploadSingle, hm] at h
      · by_cases hs : f.size > fileSizeLimit
        · simp [uploadSingle, hm, hs] at h
        · refine ⟨?_, by omega⟩
          have : fileFilter f.mimetype = true := by
            cases h' : fileFilter f.mimetype
            · exact absurd h' hm
            · rfl
          simpa [fileFilter, List.elem_iff] using this
    · rintro ⟨hm, hs⟩
      have hm' : fileFilter f.mimetype = true := by
        simpa [fileFilter, List.elem_iff] using hm
      refine ⟨{ path := cloud.url, mimetype := f.mimetype,
                filename := cloud.publicId, size := f.size },
              [(storageFolder baseUrl category, storageResourceType f.mimetype)], ?_⟩
      simp [uploadSingle, hm', Nat.not_lt.mpr hs]
  · intro hm
    have hm' : fileFilter f.mimetype = false := by
      simpa [fileFilter, List.elem_iff] using hm
    refine ⟨"Invalid file type. Only images, videos, PDFs, and Word documents are allowed.", ?_⟩
    simp [uploadSingle, hm']

/-- Witness for C5: a 10 KB PNG is accepted; an `application/zip` file is
rejected with no remote call. -/
theorem c5_upload_validation_witness :
    sampleRaw.mimetype ∈ allowedTypes ∧ sampleRaw.size ≤ fileSizeLimit ∧
    ({ mimetype := "application/zip", size := 4, originalname := "a.zip" } :
        RawFile).mimetype ∉ allowedTypes ∧
    ∃ msg, uploadSingle "/api/content" (some "hobbies")
        (some { mimetype := "application/zip", size := 4, originalname := "a.zip" })
        sampleCloud = (Except.error msg, []) := by
  refine ⟨by decide, by decide, by decide, ?_⟩
  exact (c5_upload_validation "/api/content" (some "hobbies")
    { mimetype := "application/zip", size := 4, originalname := "a.zip" }
    sampleCloud).2 (by decide)

/-- C1 counterexample: the claim says a request with a missing
`x-admin-password` header is answered 401 and the mutating operation never
attempted, but when `ADMIN_PASSWORD` is unset the gate compares `undefined`
with `undefined` and lets the request through: this DELETE with no header is
answered 200, the record is removed and the remote destroy is issued. -/
theorem c1_counterexample_missing_header :
    (deleteContent { adminPassword := none } none 0 true [sampleContent]).status = 200 ∧
    (deleteContent { adminPassword := none } none 0 true [sampleContent]).state = [] ∧
    (deleteContent { adminPassword := none } none 0 true [sampleContent]).remoteDeletes =
      [("portfolio/p0", "image")] := by
  refine ⟨rfl, rfl, rfl⟩

/-- C1 (amended): provided an admin secret is configured, a missing or
different `x-admin-password` header makes every mutating route answer 401
`Unauthorized` with the store untouched and no remote call attempted; and in
general the gate passes exactly when the supplied optional credential equals
the optional configured secret. -/
theorem c1_gate_blocks_mutations (env : Env) (s : String) (header : Option String)
    (hs : env.adminPassword = some s) (hne : header ≠ some s) :
    (∀ body raw cloud now freshId st,
      postContent env header body raw cloud now freshId st =
        { status := 401, body := Body.err "Unauthorized", state := st }) ∧
    (∀ id body raw cloud remoteOk now st,
      putContent env header id body raw cloud remoteOk now st =
        { status := 401, body := Body.err "Unauthorized", state := st }) ∧
    (∀ id remoteOk st,
      deleteContent env header id remoteOk st =
        { status := 401, body := Body.err "Unauthorized", state := st }) ∧
    (∀ body raw cloud now freshId st,
      postProject env header body raw cloud now freshId st =
        { status := 401, body := Body.err "Unauthorized", state := st }) ∧
    (∀ id body raw cloud remoteOk now st,
      putProject env header id body raw cloud remoteOk now st =
        { status := 401, body := Body.err "Unauthorized", state := st }) ∧
    (∀ id remoteOk st,
      deleteProject env header id remoteOk st =
        { status := 401, body := Body.err "Unauthorized", state := st }) ∧
    (∀ h p : Option String, authenticate h p = true ↔ h = p) := by
  have hauth : authenticate header env.adminPassword = false := by
    rw [hs]
    simpa [authenticate] using hne
  refine ⟨?_, ?_, ?_, ?_, ?_, ?_, ?_⟩
  · intro body raw cloud now freshId st
    simp [postContent, hauth]
  · intro id body raw cloud remoteOk now st
    simp [putContent, hauth]
  · intro id remoteOk st
    simp [deleteContent, hauth]
  · intro body raw cloud now freshId st
    simp [postProject, hauth]
  · intro id body raw cloud remoteOk now st
    simp [putProject, hauth]
  · intro id remoteOk st
    simp [deleteProject, hauth]
  · intro h p
    simp [authenticate]

/-- Witness for the amended C1: with secret `pw` configured, a DELETE whose
header is missing is answered 401 and the store is untouched. -/
theorem c1_gate_blocks_mutations_witness :
    (Env.adminPassword { adminPassword := some "pw" }) = some "pw" ∧
    (none : Option String) ≠ some "pw" ∧
    deleteContent { adminPassword := some "pw" } none 0 true [sampleContent] =
      { status := 401, body := Body.err "Unauthorized", state := [sampleContent] } := by
  refine ⟨rfl, by decide, ?_⟩
  exact (c1_gate_blocks_mutations { adminPassword := some "pw" } "pw" none rfl
    (by decide)).2.2.1 0 true [sampleContent]

/-- `find?` with an unsatisfiable predicate finds nothing. -/
theorem find?_false {α : Type} (st : List α) :
    st.find? (fun _ => false) = none := by
  rw [List.find?_eq_none]
  intro x hx
  simp

/-- C4: the outcome of every delete route and every update route is
independent of whether the remote-store destroy succeeds or fails (the
helper swallows the failure); and a delete of an existing record always
removes it from the store, answers 200 with the success message, and a
subsequent lookup of that id is 404, for projects and content alike. -/
theorem c4_remote_delete_swallowed :
    (∀ env header id remoteOk st,
      deleteContent env header id remoteOk st = deleteContent env header id true st) ∧
    (∀ env header id remoteOk st,
      deleteProject env header id remoteOk st = deleteProject env header id true st) ∧
    (∀ env header id body raw cloud remoteOk now st,
      putContent env header id body raw cloud remoteOk now st =
        putContent env header id body raw cloud true now st) ∧
    (∀ env header id body raw cloud remoteOk now st,
      putProject env header id body raw cloud remoteOk now st =
        putProject env header id body raw cloud true now st) ∧
    (∀ env header id remoteOk st old,
      authenticate header env.adminPassword = true →
      st.find? (fun p => p.id == id) = some old →
      (deleteProject env header id remoteOk st).status = 200 ∧
      (deleteProject env header id remoteOk st).body =
        Body.message "Project deleted successfully" ∧
      (getProjectItem id (deleteProject env header id remoteOk st).state).status = 404 ∧
      (getProjectItem id (deleteProject env header id remoteOk st).state).body =
        Body.err "Project not found") ∧
    (∀ env header id remoteOk st old,
      authenticate header env.adminPassword = true →
      st.find? (fun c => c.id == id) = some old →
      (deleteContent env header id remoteOk st).status = 200 ∧
      (deleteContent env header id remoteOk st).body =
        Body.message "Content deleted successfully" ∧
      (getContentItem id (deleteContent env header id remoteOk st).state).status = 404 ∧
      (getContentItem id (deleteContent env header id remoteOk st).state).body =
        Body.err "Content not found") := by
  refine ⟨?_, ?_, ?_, ?_, ?_, ?_⟩
  · intro env header id remoteOk st
    simp [deleteContent, deleteFromCloudinary_eq]
  · intro env header id remoteOk st
    simp [deleteProject, deleteFromCloudinary_eq]
  · intro env header id body raw cloud remoteOk now st
    simp [putContent, contentUpdateDeletes, deleteFromCloudinary_eq]
  · intro env header id body raw cloud remoteOk now st
    simp [putProject, projectUpdateDeletes, deleteFromCloudinary_eq]
  · intro env header id remoteOk st old hauth hfind
    unfold deleteProject
    rw [if_pos hauth, hfind]
    refine ⟨rfl, rfl, ?_, ?_⟩ <;>
      simp [getProjectItem, find?_filter_not, find?_false]
  · intro env header id remoteOk st old hauth hfind
    unfold deleteContent
    rw [if_pos hauth, hfind]
    refine ⟨rfl, rfl, ?_, ?_⟩ <;>
      simp [getContentItem, find?_filter_not, find?_false]

/-- Witness for C4: deleting the sample project with a failing remote
destroy still answers 200 and makes the record unresolvable. -/
theorem c4_remote_delete_swallowed_witness :
    authenticate (some "pw") (Env.adminPassword { adminPassword := some "pw" }) = true ∧
    ([sampleProject].find? (fun p => p.id == 0) = some sampleProject) ∧
    (deleteProject { adminPassword := some "pw" } (some "pw") 0 false [sampleProject]).status = 200 ∧
    (getProjectItem 0 (deleteProject { adminPassword := some "pw" } (some "pw") 0 false
      [sampleProject]).state).status = 404 := by
  refine ⟨by decide, by decide, ?_, ?_⟩
  · exact (c4_remote_delete_swallowed.2.2.2.2.1 { adminPassword := some "pw" }
      (some "pw") 0 false [sampleProject] sampleProject (by decide) (by decide)).1
  · exact (c4_remote_delete_swallowed.2.2.2.2.1 { adminPassword := some "pw" }
      (some "pw") 0 false [sampleProject] sampleProject (by decide) (by decide)).2.2.1

/-- An accepted file passes through the middleware unchanged: `req.file`
carries Cloudinary's url / public id and the single upload call is logged. -/
theorem uploadSingle_accept (baseUrl : String) (category : Option String)
    (f : RawFile) (cloud : CloudinaryResult)
    (hm : fileFilter f.mimetype = true) (hs : f.size ≤ fileSizeLimit) :
    uploadSingle baseUrl category (some f) cloud =
      (Except.ok (some { path := cloud.url, mimetype := f.mimetype,
                         filename := cloud.publicId, size := f.size }),
       [(storageFolder baseUrl category, storageResourceType f.mimetype)]) := by
  simp [uploadSingle, hm, Nat.not_lt.mpr hs]

/-- A successful `save` persists the content document unchanged. -/
theorem saveContent_ok_eq {c d : ContentRecord}
    (h : saveContent c = Except.ok d) : d = c := by
  unfold saveContent at h
  split at h
  · injection h with h
    exact h.symm
  · simp at h

/-- A successful `save` persists the project document unchanged. -/
theorem saveProject_ok_eq {p q : ProjectRecord}
    (h : saveProject p = Except.ok q) : q = p := by
  unfold saveProject at h
  split at h
  · injection h with h
    exact h.symm
  · simp at h

/-- The PUT mutation never touches a content document's id. -/
theorem contentAfterUpdate_id (body : ContentBody) (file? : Option UploadedFile)
    (now : Nat) (c : ContentRecord) :
    (contentAfterUpdate body file? now c).id = c.id := by
  cases file? <;> rfl

/-- The PUT mutation never touches a project document's id. -/
theorem projectAfterUpdate_id (body : ProjectBody) (file? : Option UploadedFile)
    (now : Nat) (p : ProjectRecord) :
    (projectAfterUpdate body file? now p).id = p.id := by
  cases file? <;> rfl

/-- C8: `GET /api/content/:category` returns a permutation of exactly the
stored records whose category equals the requested one (so other categories
never appear, and every matching record appears), ordered by createdAt
descending, without touching the store. -/
theorem c8_list_by_category (category : String) (st : List ContentRecord) :
    ∃ cs, (getContentByCategory category st).body = Body.contentList cs ∧
      (getContentByCategory category st).state = st ∧
      cs.Perm (st.filter (fun c => c.category == some category)) ∧
      (∀ c ∈ cs, c.category = some category) ∧
      (∀ c ∈ st, c.category = some category → c ∈ cs) ∧
      cs.Pairwise (fun a b => b.createdAt ≤ a.createdAt) := by
  refine ⟨sortByCreatedAtDesc (st.filter (fun c => c.category == some category)),
    rfl, rfl, ?_, ?_, ?_, ?_⟩
  · simpa [sortByCreatedAtDesc] using
      List.mergeSort_perm (st.filter (fun c => c.category == some category))
        (fun a b => decide (b.createdAt ≤ a.createdAt))
  · intro c hc
    have hperm := List.mergeSort_perm
      (st.filter (fun c => c.category == some category))
      (fun a b => decide (b.createdAt ≤ a.createdAt))
    have hmem : c ∈ st.filter (fun c => c.category == some category) :=
      hperm.mem_iff.mp (by simpa [sortByCreatedAtDesc] using hc)
    have := List.of_mem_filter hmem
    simpa using this
  · intro c hc hcat
    have hperm := List.mergeSort_perm
      (st.filter (fun c => c.category == some category))
      (fun a b => decide (b.createdAt ≤ a.createdAt))
    have hmem : c ∈ st.filter (fun c => c.category == some category) :=
      List.mem_filter.mpr ⟨hc, by simpa using hcat⟩
    simpa [sortByCreatedAtDesc] using hperm.mem_iff.mpr hmem
  · have h := @List.sorted_mergeSort ContentRecord
      (fun a b => decide (b.createdAt ≤ a.createdAt)) ?_ ?_
      (st.filter (fun c => c.category == some category))
    · simpa [sortByCreatedAtDesc] using h
    · intro a b c h1 h2
      simp only [decide_eq_true_eq] at h1 h2 ⊢
      omega
    · intro a b
      simpa using Nat.le_total b.createdAt a.createdAt

/-- Witness for C8 at a concrete store: the sample hobbies record is listed
under its own category. -/
theorem c8_list_by_category_witness :
    sampleContent ∈ [sampleContent] ∧ sampleContent.category = some "hobbies" ∧
    ∃ cs, (getContentByCategory "hobbies" [sampleContent]).body = Body.contentList cs ∧
      sampleContent ∈ cs := by
  refine ⟨by decide, by decide, ?_⟩
  obtain ⟨cs, hbody, _, _, _, hmem, _⟩ := c8_list_by_category "hobbies" [sampleContent]
  exact ⟨cs, hbody, hmem sampleContent (by decide) (by decide)⟩

/-- C2: an update that carries no file leaves the record's fileUrl, fileType
and remoteFileId (publicId) unchanged and issues no remote destroy call; an
update that carries an accepted file passes the record's previous publicId to
the remote destroy exactly once — for content and project updates alike. -/
theorem c2_update_file_frame :
    (∀ env header id body cloud remoteOk now st old,
      st.find? (fun c => c.id == id) = some old →
      (putContent env header id body none cloud remoteOk now st).remoteDeletes = [] ∧
      ∃ r, (putContent env header id body none cloud remoteOk now st).state.find?
              (fun c => c.id == id) = some r ∧
        r.fileUrl = old.fileUrl ∧ r.fileType = old.fileType ∧
        r.publicId = old.publicId) ∧
    (∀ env header id body f cloud remoteOk now st old,
      authenticate header env.adminPassword = true →
      fileFilter f.mimetype = true → f.size ≤ fileSizeLimit →
      st.find? (fun c => c.id == id) = some old →
      (putContent env header id body (some f) cloud remoteOk now st).remoteDeletes =
        [(old.publicId, getResourceType old.fileType)]) ∧
    (∀ env header id body cloud remoteOk now st old,
      st.find? (fun p => p.id == id) = some old →
      (putProject env header id body none cloud remoteOk now st).remoteDeletes = [] ∧
      ∃ r, (putProject env header id body none cloud remoteOk now st).state.find?
              (fun p => p.id == id) = some r ∧
        r.fileUrl = old.fileUrl ∧ r.fileType = old.fileType ∧
        r.publicId = old.publicId) ∧
    (∀ env header id body f cloud remoteOk now st old,
      authenticate header env.adminPassword = true →
      fileFilter f.mimetype = true → f.size ≤ fileSizeLimit →
      st.find? (fun p => p.id == id) = some old →
      (putProject env header id body (some f) cloud remoteOk now st).remoteDeletes =
        [(old.publicId, getResourceType old.fileType)]) := by
  refine ⟨?_, ?_, ?_, ?_⟩
  · intro env header id body cloud remoteOk now st old hfind
    by_cases hauth : authenticate header env.adminPassword = true
    · simp only [putContent, if_pos hauth, uploadSingle_none, hfind]
      constructor
      · split <;> rfl
      · split
        · exact ⟨old, hfind, rfl, rfl, rfl⟩
        · rename_i saved heq
          have hsv := saveContent_ok_eq heq
          have hpold : (old.id == id) = true := by
            simpa using List.find?_some hfind
          have hsid : (saved.id == id) = true := by
            rw [hsv, contentAfterUpdate_id]
            exact hpold
          refine ⟨saved,
            find?_map_update (fun c => c.id == id) saved hsid st ⟨old, hfind⟩,
            ?_, ?_, ?_⟩ <;> (rw [hsv]; rfl)
    · have hauth' : authenticate header env.adminPassword = false :=
        Bool.not_eq_true _ ▸ eq_false_of_ne_true hauth
      simp only [putContent, hauth', Bool.false_eq_true, if_false]
      exact ⟨by trivial, old, hfind, rfl, rfl, rfl⟩
  · intro env header id body f cloud remoteOk now st old hauth hm hs hfind
    simp only [putContent, if_pos hauth, uploadSingle_accept _ _ _ _ hm hs, hfind]
    split <;> simp [contentUpdateDeletes, deleteFromCloudinary_eq]
  · intro env header id body cloud remoteOk now st old hfind
    by_cases hauth : authenticate header env.adminPassword = true
    · simp only [putProject, if_pos hauth, uploadSingle_none, hfind]
      constructor
      · split <;> rfl
      · split
        · exact ⟨old, hfind, rfl, rfl, rfl⟩
        · rename_i saved heq
          have hsv := saveProject_ok_eq heq
          have hpold : (old.id == id) = true := by
            simpa using List.find?_some hfind
          have hsid : (saved.id == id) = true := by
            rw [hsv, projectAfterUpdate_id]
            exact hpold
          refine ⟨saved,
            find?_map_update (fun p => p.id == id) saved hsid st ⟨old, hfind⟩,
            ?_, ?_, ?_⟩ <;> (rw [hsv]; rfl)
    · have hauth' : authenticate header env.adminPassword = false :=
        Bool.not_eq_true _ ▸ eq_false_of_ne_true hauth
      simp only [putProject, hauth', Bool.false_eq_true, if_false]
      exact ⟨by trivial, old, hfind, rfl, rfl, rfl⟩
  · intro env header id body f cloud remoteOk now st old hauth hm hs hfind
    simp only [putProject, if_pos hauth, uploadSingle_accept _ _ _ _ hm hs, hfind]
    split <;> simp [projectUpdateDeletes, deleteFromCloudinary_eq]

/-- Witness for C2: updating the sample record without a file issues no
destroy call; updating it with an accepted image destroys exactly the old
public id. -/
theorem c2_update_file_frame_witness :
    ([sampleContent].find? (fun c => c.id == 0) = some sampleContent) ∧
    (putContent { adminPassword := some "pw" } (some "pw") 0
        { title := none, description := some "new", category := none }
        none sampleCloud true 7 [sampleContent]).remoteDeletes = [] ∧
    (putContent { adminPassword := some "pw" } (some "pw") 0
        { title := none, description := some "new", category := none }
        (some sampleRaw) sampleCloud true 7 [sampleContent]).remoteDeletes =
      [("portfolio/p0", "image")] := by
  refine ⟨by decide, ?_, ?_⟩
  · exact (c2_update_file_frame.1 { adminPassword := some "pw" } (some "pw") 0
      { title := none, description := some "new", category := none }
      sampleCloud true 7 [sampleContent] sampleContent (by decide)).1
  · have h := c2_update_file_frame.2.1 { adminPassword := some "pw" } (some "pw") 0
      { title := none, description := some "new", category := none }
      sampleRaw sampleCloud true 7 [sampleContent] sampleContent
      (by decide) (by decide) (by decide) (by decide)
    exact h.trans (by decide)

end Portfolio
